import Mathlib

/-!
Shallow embedding of the voice-sampler repository (src/main.py and
src/app.py): the synthesis parameter set and its clamping, the voice
catalog (cached with a time-to-live in app.py, uncached in main.py),
interactive voice selection, the generate/save handlers of the reactive
front-end, and the terminal front-end's menu loop as an explicit state
machine driven by events.
-/

namespace VoiceSampler

/-- Audio payloads (the bytes returned by the provider) are modelled as
byte lists. -/
abbrev Bytes := List Nat

/-- Python str.strip() as used throughout both files: remove leading and
trailing whitespace.  Implemented structurally over the string's
character list so that concrete instances reduce in the kernel. -/
def strip (s : String) : String :=
  String.mk (((s.data.dropWhile Char.isWhitespace).reverse.dropWhile Char.isWhitespace).reverse)

/-- The ordinal parse of main.py select_voice (lines 80-81): `choice and
choice.isdigit()` followed by `int(choice)`.  Returns the parsed number
exactly when the string is non-empty and all ASCII digits. -/
def parseOrdinal (s : String) : Option Nat :=
  if s.data ≠ [] ∧ s.data.all Char.isDigit then
    some (s.data.foldl (fun n c => 10 * n + (c.toNat - 48)) 0)
  else none

/-- The spec's ParameterSet.  Fields follow the `settings` dicts of the
source: main.py lines 161-166 hold stability, similarity_boost and style
(plus a fixed boolean speaker-boost flag that is passed through unchanged
and is not modelled); app.py lines 170-175 additionally hold speed.
Defaults are 0.5, 0.75, 0.0, 1.0 in both files. -/
structure Settings where
  stability : ℚ
  similarity_boost : ℚ
  style : ℚ
  speed : ℚ
deriving DecidableEq, Repr

/-- Default parameter values (main.py lines 161-166, app.py slider
defaults lines 101-135): 0.5, 0.75, 0.0, 1.0. -/
def defaultSettings : Settings :=
  { stability := 1/2, similarity_boost := 3/4, style := 0, speed := 1 }

/-- Clamp into [0,1]: the expression `max(0.0, min(1.0, float(val)))` of
main.py lines 243, 247 and 251. -/
def clamp01 (x : ℚ) : ℚ := max 0 (min 1 x)

/-- Clamp into [0.7,1.2]: the speed slider of app.py lines 128-135 has
min_value=0.7 and max_value=1.2, so the stored position is the attempted
value confined to that interval. -/
def clampSpeed (x : ℚ) : ℚ := max (7/10) (min (12/10) x)

/-- The four ParameterSet fields. -/
inductive ParamField
  | stability
  | similarity
  | style
  | speed
deriving DecidableEq, Repr

/-- Lower bound of a field (0 for the three [0,1] knobs, 0.7 for speed). -/
def ParamField.lo : ParamField → ℚ
  | .speed => 7/10
  | _ => 0

/-- Upper bound of a field (1 for the three [0,1] knobs, 1.2 for speed). -/
def ParamField.hi : ParamField → ℚ
  | .speed => 12/10
  | _ => 1

/-- Store a value into one field, clamped to that field's bound:
main.py lines 241-251 for stability, similarity and style; the app.py
slider bounds (lines 128-135) for speed. -/
def Settings.set (s : Settings) (f : ParamField) (x : ℚ) : Settings :=
  match f with
  | .stability => { s with stability := clamp01 x }
  | .similarity => { s with similarity_boost := clamp01 x }
  | .style => { s with style := clamp01 x }
  | .speed => { s with speed := clampSpeed x }

/-- Read one field. -/
def Settings.get (s : Settings) : ParamField → ℚ
  | .stability => s.stability
  | .similarity => s.similarity_boost
  | .style => s.style
  | .speed => s.speed

/-- Every stored value lies within its declared bound. -/
def Settings.inBounds (s : Settings) : Prop :=
  0 ≤ s.stability ∧ s.stability ≤ 1 ∧
  0 ≤ s.similarity_boost ∧ s.similarity_boost ≤ 1 ∧
  0 ≤ s.style ∧ s.style ≤ 1 ∧
  7/10 ≤ s.speed ∧ s.speed ≤ 12/10

instance (s : Settings) : Decidable s.inBounds := by
  unfold Settings.inBounds; infer_instance

/-- One voice record as fetched from the catalog provider: voice_id,
name, and category (defaulting to "unknown" when the provider omits it,
main.py lines 58 and 73, app.py line 54). -/
structure Voice where
  voice_id : String
  name : String
  category : String
deriving DecidableEq, Repr

/-- main.py get_voices (lines 44-47): performs exactly one provider query
(client.voices.get_all()) on every invocation — there is no cache — and
returns the provider's voice list.  The second component counts the
provider calls made by the invocation (always 1). -/
def getVoicesMain (provider : List Voice) : List Voice × Nat :=
  (provider, 1)

/-- The app.py voice cache: st.cache_data with ttl=300 (line 50) holds at
most one entry, recorded with the time it was stored. -/
structure Cache where
  entry : Option (Nat × List Voice)
deriving DecidableEq, Repr

/-- Result of one app.py get_voices invocation: the returned list, the
cache afterwards, and how many provider calls were made (0 or 1). -/
structure FetchResult where
  voices : List Voice
  cache : Cache
  providerCalls : Nat
deriving DecidableEq, Repr

/-- app.py get_voices (lines 50-54) under st.cache_data(ttl=300): a call
at time `now` returns the cached list with no provider call while the
entry is younger than 300 seconds; otherwise it queries the provider
once and replaces the cache entry. -/
def getVoicesApp (provider : List Voice) (now : Nat) (c : Cache) : FetchResult :=
  match c.entry with
  | some (t, v) =>
      if now - t < 300 then { voices := v, cache := c, providerCalls := 0 }
      else { voices := provider, cache := { entry := some (now, provider) }, providerCalls := 1 }
  | none => { voices := provider, cache := { entry := some (now, provider) }, providerCalls := 1 }

/-- The Refresh Voices button (app.py lines 139-141) calls
get_voices.clear(), emptying the cache. -/
def clearVoicesCache (_ : Cache) : Cache := { entry := none }

/-- main.py select_voice (lines 64-89).  The raw input is stripped; if it
is non-empty and all digits it is parsed with parseOrdinal; the Python guard
`0 <= int(choice) - 1 < len(voices)` on the parsed n is equivalent to
`1 ≤ n ∧ n ≤ len(voices)`.  Returns the selected (or kept) voice id and
whether the "Invalid number, keeping current voice." message was
printed: an out-of-range number prints it, while non-numeric or empty
input falls through silently, keeping the current voice. -/
def selectVoice (voices : List Voice) (current : String) (input : String) : String × Bool :=
  let choice := strip input
  match parseOrdinal choice with
  | some n =>
      if 1 ≤ n ∧ n ≤ voices.length then
        ((voices.getD (n - 1) { voice_id := "", name := "", category := "unknown" }).voice_id, false)
      else
        (current, true)
  | none => (current, false)

/-- The outcome of one call to the external synthesis provider
(client.text_to_speech.convert): the joined audio bytes, or a raised
provider error with its message. -/
inductive SynthOutcome
  | ok (b : Bytes)
  | err (cause : String)
deriving DecidableEq, Repr

/-- main.py generate_audio (lines 92-123): builds the VoiceSettings and
performs exactly one convert call with the given text, voice and
settings — there is no emptiness check on the text — then joins the
returned chunks.  The second component counts provider convert calls
(always 1); the first is the bytes or the propagated provider error. -/
def generateAudio (synth : String → String → Settings → SynthOutcome)
    (text voice : String) (s : Settings) : Except String Bytes × Nat :=
  match synth text voice s with
  | .ok b => (.ok b, 1)
  | .err c => (.error c, 1)

/-- Result of main.py startup (lines 140-151): the --list-voices flag
exits after listing; otherwise a non-empty argv is joined with spaces
(without trimming and without an emptiness check) as the phrase; with no
argv the prompt's input is stripped and an empty result exits with
status 1 before any synthesis. -/
inductive StartupResult
  | listVoices
  | exitNoPhrase
  | phrase (p : String)
deriving DecidableEq, Repr

/-- main.py lines 140-151: `" ".join(sys.argv[1:])` when arguments are
present (after the --list-voices check on the first argument), else the
stripped interactive prompt, exiting when that is empty.  `argv` is
sys.argv[1:]. -/
def mainStartup (argv : List String) (promptInput : String) : StartupResult :=
  match argv with
  | a :: _ =>
      if a = "--list-voices" then .listVoices
      else .phrase (String.intercalate " " argv)
  | [] =>
      let p := strip promptInput
      if p = "" then .exitNoPhrase else .phrase p

/-- Messages the app.py handlers show to the user. -/
inductive AppMsg
  | warning (text : String)
  | error (text : String)
  | saved (name : String)
deriving DecidableEq, Repr

/-- The app.py session state relevant to generation (lines 180-181): the
current audio bytes and the phrase snapshot recorded with them, both
absent before the first successful generation.  Nothing else is stored
with the artifact. -/
structure AppState where
  audio_data : Option Bytes
  last_phrase : Option String
deriving DecidableEq, Repr

/-- The app.py generate handler (lines 165-183): a phrase that is empty
after stripping produces only a warning and no provider call; otherwise
generate_audio is called once with the stripped phrase and, on success,
session state stores the bytes and the stripped phrase, while on error
the state is left unchanged and the error text is shown.  Returns the
state afterwards, the number of provider calls, and the messages. -/
def appGenerateRun (synth : String → String → Settings → SynthOutcome)
    (st : AppState) (phrase voice : String) (s : Settings) :
    AppState × Nat × List AppMsg :=
  if strip phrase = "" then (st, 0, [.warning "Please enter a phrase to generate."])
  else
    match synth (strip phrase) voice s with
    | .ok b => ({ audio_data := some b, last_phrase := some (strip phrase) }, 1, [])
    | .err c => (st, 1, [.error ("Error generating audio: " ++ c)])

/-- The app.py save button (lines 202-207 with save_recording, lines
77-83): a name that is empty after stripping yields the "Enter a
filename" warning and writes nothing; otherwise the bytes are written to
recordings/<stripped name>.mp3, overwriting any previous file of that
name.  Recordings are an association list with the newest write first,
so lookup returns the last write. -/
def appSaveClick (recs : List (String × Bytes)) (audio : Bytes) (saveName : String) :
    List (String × Bytes) × List AppMsg :=
  if strip saveName = "" then (recs, [.warning "Enter a filename"])
  else ((strip saveName, audio) :: recs, [.saved (strip saveName)])

/-- The save branch of the terminal menu (main.py lines 214-223): the
entered name is stripped; when it is empty NOTHING happens — no write
and no message — and the menu continues; otherwise the current audio
file's bytes are copied to recordings/<name>.mp3 (overwriting a previous
file of that name) and a confirmation is printed.  Returns the
recordings afterwards and the printed messages. -/
def saveBranch (recs : List (String × Bytes)) (current : Bytes) (rawName : String) :
    List (String × Bytes) × List String :=
  let name := strip rawName
  if name = "" then (recs, [])
  else ((name, current) :: recs, ["Saved to: recordings/" ++ name ++ ".mp3"])

/-- Classification of one settings-prompt input in main.py lines 241-251:
the stripped input is empty (falsy, so the field is kept untouched), or
float(val) parses it to a number, or float(val) raises ValueError. -/
inductive EditInput
  | empty
  | numeric (q : ℚ)
  | nonNumeric
deriving DecidableEq, Repr

/-- Third prompt of the edit-settings branch (main.py lines 249-251):
style.  Returns the settings afterwards and whether float(val) raised. -/
def editStyleStep (s : Settings) (i3 : EditInput) : Settings × Bool :=
  match i3 with
  | .nonNumeric => (s, true)
  | .empty => (s, false)
  | .numeric q => ({ s with style := clamp01 q }, false)

/-- Second prompt (main.py lines 245-247): similarity, then the style
prompt.  A raise stops the sequence with the fields stored so far. -/
def editSimStep (s : Settings) (i2 i3 : EditInput) : Settings × Bool :=
  match i2 with
  | .nonNumeric => (s, true)
  | .empty => editStyleStep s i3
  | .numeric q => editStyleStep { s with similarity_boost := clamp01 q } i3

/-- The whole edit-settings branch (main.py lines 237-255): stability,
similarity and style are prompted in order; each non-empty input goes
straight to float(val) — there is no try/except, so a non-numeric input
raises ValueError out of the loop — and a parsed value is stored clamped
to [0,1].  Returns the settings afterwards and whether a ValueError was
raised. -/
def editSettingsRun (s : Settings) (i1 i2 i3 : EditInput) : Settings × Bool :=
  match i1 with
  | .nonNumeric => (s, true)
  | .empty => editSimStep s i2 i3
  | .numeric q => editSimStep { s with stability := clamp01 q } i2 i3

/-- Phase of the terminal front-end's loop (main.py lines 170-271):
inside a generation attempt, at the retry prompt after a failed attempt,
at the options menu after a success, exited normally (cleanup ran), or
terminated by an uncaught exception. -/
inductive Phase
  | generating
  | awaitRetry
  | menu
  | done
  | crashed
deriving DecidableEq, Repr

/-- The state of main.py's interactive loop: the live phrase, voice and
settings, the generation counter, the contents of the transient audio
file (none before the first write and after cleanup), the recordings
directory (newest write first), the generation numbers of the successful
generations so far (newest first, as printed by line 181), and the
phase. -/
structure LoopState where
  phrase : String
  voice : String
  settings : Settings
  genCount : Nat
  audioFile : Option Bytes
  recordings : List (String × Bytes)
  history : List Nat
  phase : Phase
deriving DecidableEq, Repr

/-- Entering the loop head (main.py line 171): generation_count += 1,
then a generation attempt starts. -/
def enterLoop (st : LoopState) : LoopState :=
  { st with genCount := st.genCount + 1, phase := .generating }

/-- The menu commands of main.py lines 203-266. -/
inductive MenuCmd
  | regenerate
  | playAgain
  | save (rawName : String)
  | newPhrase (raw : String)
  | changeVoice (input : String)
  | editSettings (i1 i2 i3 : EditInput)
  | quit
deriving DecidableEq, Repr

/-- One menu command processed from the options menu (main.py lines
203-266).  regenerate breaks back to the loop head; play repeats
playback only; save runs the save branch on the current audio file;
new-phrase with a non-empty stripped text replaces the phrase, resets
the counter to 0 and breaks to the loop head (which increments it to 1),
while an empty text only prints "No phrase entered."; change-voice
applies select_voice and unconditionally breaks to the loop head;
edit-settings runs the three prompts and, unless a ValueError escaped,
breaks to the loop head; quit deletes the transient file and exits. -/
def menuStep (voices : List Voice) (st : LoopState) : MenuCmd → LoopState
  | .regenerate => enterLoop st
  | .playAgain => st
  | .save rawName =>
      match st.audioFile with
      | some b => { st with recordings := (saveBranch st.recordings b rawName).1 }
      | none => st
  | .newPhrase raw =>
      if strip raw = "" then st
      else enterLoop { st with phrase := strip raw, genCount := 0 }
  | .changeVoice input =>
      enterLoop { st with voice := (selectVoice voices st.voice input).1 }
  | .editSettings i1 i2 i3 =>
      let r := editSettingsRun st.settings i1 i2 i3
      if r.2 then { st with settings := r.1, phase := .crashed }
      else enterLoop { st with settings := r.1 }
  | .quit => { st with audioFile := none, phase := .done }

/-- External events driving the loop: the in-flight generation attempt
resolves with bytes or a provider error (main.py lines 173-185), the
user answers the retry prompt (lines 186-190; no re-attempts the outer
break, whose cleanup deletes the transient file, lines 269-271), or the
user issues a menu command. -/
inductive Event
  | synthOk (b : Bytes)
  | synthErr (cause : String)
  | retryAnswer (yes : Bool)
  | cmd (c : MenuCmd)
deriving DecidableEq, Repr

/-- One step of the terminal loop.  A successful attempt writes the
bytes to the transient file, records the printed generation number and
enters the menu; a failed attempt changes nothing but moves to the retry
prompt; answering yes re-enters the loop head (incrementing the
counter), answering no exits with cleanup; menu commands are handled by
menuStep.  Events that cannot occur in the current phase leave the state
unchanged. -/
def step (voices : List Voice) (st : LoopState) : Event → LoopState
  | .synthOk b =>
      if st.phase = .generating then
        { st with audioFile := some b, history := st.genCount :: st.history, phase := .menu }
      else st
  | .synthErr _ =>
      if st.phase = .generating then { st with phase := .awaitRetry } else st
  | .retryAnswer yes =>
      if st.phase = .awaitRetry then
        if yes then enterLoop st
        else { st with audioFile := none, phase := .done }
      else st
  | .cmd c => if st.phase = .menu then menuStep voices st c else st

/-- Run the loop over a list of events. -/
def run (voices : List Voice) (st : LoopState) (events : List Event) : LoopState :=
  events.foldl (step voices) st

/-- The default voice id of main.py (lines 95 and 158). -/
def defaultVoice : String := "bIHbv24MWmeRgasZH58o"

/-- The loop state right after startup with the given phrase (main.py
lines 153-171): default voice and settings, generation_count initialised
to 0 and immediately incremented by the first loop head, no audio file
yet, empty recordings. -/
def initState (phrase : String) : LoopState :=
  enterLoop
    { phrase := phrase, voice := defaultVoice, settings := defaultSettings,
      genCount := 0, audioFile := none, recordings := [], history := [], phase := .menu }

/-- Concrete sample bytes for witnesses. -/
def demoBytes : Bytes := [1, 2, 3]

/-- A second distinct byte payload. -/
def demoBytes2 : Bytes := [4, 5]

/-- A concrete two-voice catalog for witnesses. -/
def demoVoices : List Voice :=
  [{ voice_id := "V1", name := "Alice", category := "premade" },
   { voice_id := "V2", name := "Bob", category := "unknown" }]

/-- A concrete menu-phase loop state holding an artifact. -/
def demoMenuState : LoopState :=
  { phrase := "hi", voice := "keep", settings := defaultSettings,
    genCount := 3, audioFile := some demoBytes, recordings := [],
    history := [3, 2, 1], phase := .menu }

/-- One regenerate-then-success round of the terminal loop: the user
picks [r] and the attempt succeeds with bytes b. -/
def regenRound (b : Bytes) : List Event := [.cmd .regenerate, .synthOk b]

/-- k successive regenerate-then-success rounds. -/
def regenRounds (b : Bytes) : Nat → List Event
  | 0 => []
  | k+1 => regenRounds b k ++ regenRound b

/-- The descending list [top, top-1, ..., top-k+1] of length k: the
generation numbers recorded (newest first) by k successive successes
ending with number top. -/
def countdown (top : Nat) : Nat → List Nat
  | 0 => []
  | k+1 => top :: countdown (top - 1) k

/-! Helper lemmas shared by the claim theorems. -/

theorem clamp01_nonneg (x : ℚ) : 0 ≤ clamp01 x := le_max_left _ _

theorem clamp01_le_one (x : ℚ) : clamp01 x ≤ 1 :=
  max_le (by norm_num) (min_le_left _ _)

theorem clampSpeed_lb (x : ℚ) : 7/10 ≤ clampSpeed x := le_max_left _ _

theorem clampSpeed_ub (x : ℚ) : clampSpeed x ≤ 12/10 :=
  max_le (by norm_num) (min_le_left _ _)

theorem set_inBounds (s : Settings) (f : ParamField) (x : ℚ)
    (hs : s.inBounds) : (Settings.set s f x).inBounds := by
  obtain ⟨h1, h2, h3, h4, h5, h6, h7, h8⟩ := hs
  cases f
  · exact ⟨clamp01_nonneg x, clamp01_le_one x, h3, h4, h5, h6, h7, h8⟩
  · exact ⟨h1, h2, clamp01_nonneg x, clamp01_le_one x, h5, h6, h7, h8⟩
  · exact ⟨h1, h2, h3, h4, clamp01_nonneg x, clamp01_le_one x, h7, h8⟩
  · exact ⟨h1, h2, h3, h4, h5, h6, clampSpeed_lb x, clampSpeed_ub x⟩

theorem defaultSettings_inBounds : defaultSettings.inBounds := by
  refine ⟨?_, ?_, ?_, ?_, ?_, ?_, ?_, ?_⟩ <;> norm_num [defaultSettings]

theorem foldl_set_inBounds (ops : List (ParamField × ℚ)) :
    ∀ s : Settings, s.inBounds →
      (ops.foldl (fun s p => Settings.set s p.1 p.2) s).inBounds := by
  induction ops with
  | nil => intro s hs; exact hs
  | cons p rest ih => intro s hs; exact ih _ (set_inBounds s p.1 p.2 hs)

/-- Claim C1: every ParameterSet set operation stores the input clamped to
the field's declared bound (stability, similarity and style to [0,1];
speed to [0.7,1.2]); in particular set(stability, 1.7) stores 1.0 and
set(speed, 0.3) stores 0.7; and after any sequence of set operations
starting from the defaults, every stored value lies within its declared
bound. -/
theorem c1_set_clamps_and_bounds :
    (∀ (s : Settings) (f : ParamField) (x : ℚ),
      (Settings.set s f x).get f = max f.lo (min f.hi x))
    ∧ (Settings.set defaultSettings .stability (17/10)).stability = 1
    ∧ (Settings.set defaultSettings .speed (3/10)).speed = 7/10
    ∧ ∀ ops : List (ParamField × ℚ),
        (ops.foldl (fun s p => Settings.set s p.1 p.2) defaultSettings).inBounds := by
  refine ⟨?_, ?_, ?_, ?_⟩
  · intro s f x; cases f <;> rfl
  · show clamp01 (17/10) = 1
    rw [clamp01]; norm_num
  · show clampSpeed (3/10) = 7/10
    rw [clampSpeed]; norm_num
  · intro ops
    exact foldl_set_inBounds ops defaultSettings defaultSettings_inBounds

/-- Claim C2 counterexample: the claim asserts the Artifact embeds a
snapshot of (phrase, voice id, ParameterSet).  In the code, the generate
handler stores only the audio bytes and the stripped phrase
(st.session_state.audio_data / last_phrase, app.py lines 180-181; the
terminal front-end stores bytes alone).  Two generations of the same
phrase under a different voice and different ParameterSet leave the
session in identical states, so the stored artifact determines neither
the requesting voice nor the ParameterSet, refuting the claimed snapshot
equality for voice and parameters at this concrete input. -/
theorem c2_counterexample :
    (appGenerateRun (fun _ _ _ => .ok demoBytes)
        { audio_data := none, last_phrase := none } "Hello world" "V1" defaultSettings
      = appGenerateRun (fun _ _ _ => .ok demoBytes)
        { audio_data := none, last_phrase := none } "Hello world" "V2"
        (Settings.set defaultSettings .stability (9/10)))
    ∧ defaultSettings ≠ Settings.set defaultSettings .stability (9/10)
    ∧ "V1" ≠ "V2" := by
  refine ⟨rfl, ?_, by decide⟩
  intro h
  have h2 : (1/2 : ℚ) = clamp01 (9/10) := congrArg Settings.stability h
  rw [clamp01] at h2
  norm_num at h2

/-- Claim C2 amended: the artifact's embedded snapshot consists of the
phrase only — after a successful generation the session state holds
exactly the audio bytes and the stripped phrase as it was at the moment
of the request; the requesting voice id and ParameterSet are not
embedded anywhere. -/
theorem c2_amended_phrase_only_snapshot :
    ∀ (synth : String → String → Settings → SynthOutcome) (st : AppState)
      (p v : String) (s : Settings) (b : Bytes),
      strip p ≠ "" → synth (strip p) v s = .ok b →
      (appGenerateRun synth st p v s).1
        = { audio_data := some b, last_phrase := some (strip p) } := by
  intro synth st p v s b hp hok
  unfold appGenerateRun
  rw [if_neg hp, hok]

/-- Claim C2 amended, witness: a successful first generation of
"Hello world" stores the bytes together with the phrase snapshot. -/
theorem c2_amended_witness :
    (appGenerateRun (fun _ _ _ => .ok demoBytes)
        { audio_data := none, last_phrase := none } "Hello world" "V1" defaultSettings).1
      = { audio_data := some demoBytes, last_phrase := some "Hello world" } :=
  c2_amended_phrase_only_snapshot (fun _ _ _ => .ok demoBytes)
    { audio_data := none, last_phrase := none } "Hello world" "V1" defaultSettings demoBytes
    (by decide) rfl

/-- Claim C3: a failed synthesis attempt leaves the current artifact
untouched.  In the terminal loop a provider error moves to the retry
prompt changing nothing else (in particular a regenerate from the menu
followed by a failure keeps the previous artifact bytes); in the
reactive front-end the except branch leaves the session state exactly as
it was before the attempt. -/
theorem c3_failed_synthesis_preserves_artifact :
    (∀ (voices : List Voice) (st : LoopState) (c : String) (A : Bytes),
      st.phase = .generating → st.audioFile = some A →
        (step voices st (.synthErr c)).audioFile = some A
        ∧ step voices st (.synthErr c) = { st with phase := .awaitRetry })
    ∧ (∀ (voices : List Voice) (st : LoopState) (c : String) (A : Bytes),
      st.phase = .menu → st.audioFile = some A →
        (run voices st [.cmd .regenerate, .synthErr c]).audioFile = some A)
    ∧ ∀ (synth : String → String → Settings → SynthOutcome) (st : AppState)
        (p v : String) (s : Settings) (c : String),
        synth (strip p) v s = .err c → (appGenerateRun synth st p v s).1 = st := by
  refine ⟨?_, ?_, ?_⟩
  · intro voices st c A hph hA
    refine ⟨?_, ?_⟩
    · simp [step, hph, hA]
    · simp [step, hph]
  · intro voices st c A hph hA
    simp [run, step, menuStep, enterLoop, hph, hA]
  · intro synth st p v s c herr
    unfold appGenerateRun
    by_cases hp : strip p = ""
    · rw [if_pos hp]
    · rw [if_neg hp, herr]

/-- Claim C3 witness: from the concrete menu state holding an artifact, a
regenerate whose synthesis fails keeps those bytes, and the reactive
handler's failing attempt leaves the concrete session state unchanged. -/
theorem c3_witness :
    ((step demoVoices (enterLoop demoMenuState) (.synthErr "boom")).audioFile = some demoBytes
      ∧ step demoVoices (enterLoop demoMenuState) (.synthErr "boom")
          = { enterLoop demoMenuState with phase := .awaitRetry })
    ∧ (run demoVoices demoMenuState [.cmd .regenerate, .synthErr "boom"]).audioFile = some demoBytes
    ∧ (appGenerateRun (fun _ _ _ => .err "boom")
        { audio_data := some demoBytes, last_phrase := some "hi" } "hi" "V1" defaultSettings).1
      = { audio_data := some demoBytes, last_phrase := some "hi" } :=
  ⟨c3_failed_synthesis_preserves_artifact.1 demoVoices (enterLoop demoMenuState) "boom" demoBytes
      rfl rfl,
   c3_failed_synthesis_preserves_artifact.2.1 demoVoices demoMenuState "boom" demoBytes rfl rfl,
   c3_failed_synthesis_preserves_artifact.2.2 (fun _ _ _ => .err "boom")
      { audio_data := some demoBytes, last_phrase := some "hi" } "hi" "V1" defaultSettings "boom"
      rfl⟩

theorem countdown_snoc (k : Nat) :
    ∀ top : Nat, countdown top (k+1) = countdown top k ++ [top - k] := by
  induction k with
  | zero => intro top; rfl
  | succ k ih =>
      intro top
      show top :: countdown (top - 1) (k+1) = (top :: countdown (top - 1) k) ++ [top - (k+1)]
      have h : top - 1 - k = top - (k+1) := by omega
      rw [ih (top - 1), h, List.cons_append]

theorem run_regenRound (voices : List Voice) (b : Bytes) (st : LoopState)
    (h : st.phase = .menu) :
    run voices st (regenRound b)
      = { st with genCount := st.genCount + 1, audioFile := some b,
                  history := (st.genCount + 1) :: st.history, phase := .menu } := by
  simp [run, regenRound, step, menuStep, enterLoop, h]

theorem run_regenRounds (b : Bytes) (voices : List Voice) (k : Nat) :
    ∀ st : LoopState, st.phase = .menu →
      (run voices st (regenRounds b k)).phase = .menu
      ∧ (run voices st (regenRounds b k)).genCount = st.genCount + k
      ∧ (run voices st (regenRounds b k)).history
          = countdown (st.genCount + k) k ++ st.history
      ∧ (run voices st (regenRounds b k)).phrase = st.phrase := by
  induction k with
  | zero =>
      intro st h
      exact ⟨h, rfl, rfl, rfl⟩
  | succ k ih =>
      intro st h
      obtain ⟨ih1, ih2, ih3, ih4⟩ := ih st h
      have hsplit : run voices st (regenRounds b (k+1))
          = run voices (run voices st (regenRounds b k)) (regenRound b) := by
        show run voices st (regenRounds b k ++ regenRound b) = _
        simp [run, List.foldl_append]
      rw [hsplit, run_regenRound voices b _ ih1]
      refine ⟨rfl, ?_, ?_, ih4⟩
      · show (run voices st (regenRounds b k)).genCount + 1 = st.genCount + (k+1)
        omega
      · show ((run voices st (regenRounds b k)).genCount + 1)
            :: (run voices st (regenRounds b k)).history
          = countdown (st.genCount + (k+1)) (k+1) ++ st.history
        rw [ih2, ih3]
        show (st.genCount + k + 1) :: (countdown (st.genCount + k) k ++ st.history)
          = (st.genCount + (k+1)) :: countdown (st.genCount + (k+1) - 1) k ++ st.history
        have h2 : st.genCount + (k+1) - 1 = st.genCount + k := by omega
        rw [h2, List.cons_append, Nat.add_assoc]

/-- Claim C4 counterexample: the claim says new_phrase resets the counter
so that the next successful generation of the new phrase is numbered 1.
Concretely, after the first phrase "hi" succeeds as generation 1, the
user enters new phrase "bye", the attempt fails, and the user answers
yes at the retry prompt: the retry re-runs the loop head, which
increments generation_count again (main.py line 171), so the first and
only successful generation of "bye" is printed as generation 2, not 1
(final history [2, 1], the 1 being the old phrase's generation). -/
theorem c4_counterexample :
    (run demoVoices (initState "hi")
        [.synthOk demoBytes, .cmd (.newPhrase "bye"), .synthErr "boom",
         .retryAnswer true, .synthOk demoBytes2]).phrase = "bye"
    ∧ (run demoVoices (initState "hi")
        [.synthOk demoBytes, .cmd (.newPhrase "bye"), .synthErr "boom",
         .retryAnswer true, .synthOk demoBytes2]).genCount = 2
    ∧ (run demoVoices (initState "hi")
        [.synthOk demoBytes, .cmd (.newPhrase "bye"), .synthErr "boom",
         .retryAnswer true, .synthOk demoBytes2]).history = [2, 1]
    ∧ (run demoVoices (initState "hi")
        [.synthOk demoBytes, .cmd (.newPhrase "bye"), .synthErr "boom",
         .retryAnswer true, .synthOk demoBytes2]).phase = .menu :=
  ⟨rfl, rfl, rfl, rfl⟩

/-- Claim C4 amended: new_phrase sets generation_count to 0 so the NEXT
ATTEMPT is numbered 1; every attempt — a regenerate from the menu or a
retry after a failure — increments the counter by exactly 1, so a failed
and retried attempt consumes a generation number; when every attempt
succeeds, the first generation of a new phrase is numbered 1 and k
further regenerates are numbered consecutively 2, ..., k+1. -/
theorem c4_amended_generation_numbering :
    (∀ (voices : List Voice) (st : LoopState) (raw : String),
      st.phase = .menu → strip raw ≠ "" →
        (step voices st (.cmd (.newPhrase raw))).genCount = 1
        ∧ (step voices st (.cmd (.newPhrase raw))).phase = .generating
        ∧ (step voices st (.cmd (.newPhrase raw))).phrase = strip raw)
    ∧ (∀ (voices : List Voice) (st : LoopState),
      st.phase = .menu → (step voices st (.cmd .regenerate)).genCount = st.genCount + 1)
    ∧ (∀ (voices : List Voice) (st : LoopState) (c : String),
      st.phase = .generating →
        (run voices st [.synthErr c, .retryAnswer true]).genCount = st.genCount + 1
        ∧ (run voices st [.synthErr c, .retryAnswer true]).phase = .generating)
    ∧ ∀ (voices : List Voice) (st : LoopState) (b : Bytes) (raw : String) (k : Nat),
      st.phase = .menu → strip raw ≠ "" →
        (run voices (run voices st [.cmd (.newPhrase raw), .synthOk b])
            (regenRounds b k)).genCount = k + 1
        ∧ (run voices (run voices st [.cmd (.newPhrase raw), .synthOk b])
            (regenRounds b k)).history = countdown (k + 1) (k + 1) ++ st.history := by
  refine ⟨?_, ?_, ?_, ?_⟩
  · intro voices st raw h hraw
    refine ⟨?_, ?_, ?_⟩ <;> simp [step, menuStep, enterLoop, h, hraw]
  · intro voices st h
    simp [step, menuStep, enterLoop, h]
  · intro voices st c h
    constructor <;> simp [run, step, enterLoop, h]
  · intro voices st b raw k h hraw
    have hst2 : run voices st [.cmd (.newPhrase raw), .synthOk b]
        = { st with phrase := strip raw, genCount := 1, audioFile := some b,
                    history := 1 :: st.history, phase := .menu } := by
      simp [run, step, menuStep, enterLoop, h, hraw]
    rw [hst2]
    obtain ⟨h1, h2, h3, h4⟩ := run_regenRounds b voices k
      { st with phrase := strip raw, genCount := 1, audioFile := some b,
                history := 1 :: st.history, phase := .menu } rfl
    constructor
    · rw [h2]
      show 1 + k = k + 1
      omega
    · rw [h3]
      show countdown (1 + k) k ++ (1 :: st.history)
        = countdown (k + 1) (k + 1) ++ st.history
      rw [countdown_snoc k (k + 1)]
      have hk1 : k + 1 - k = 1 := by omega
      have hkk : 1 + k = k + 1 := by omega
      rw [hk1, List.append_assoc, hkk]
      rfl

/-- Claim C4 amended, witness: from the concrete menu state (counter 3),
new_phrase "bye" renumbers the next attempt 1; a plain regenerate from
that state is attempt 4; a failed-and-retried attempt from a generating
state consumes a number; and a successful first generation of "bye"
followed by two all-success regenerates is numbered 1, 2, 3. -/
theorem c4_amended_witness :
    (step demoVoices demoMenuState (.cmd (.newPhrase "bye"))).genCount = 1
    ∧ (step demoVoices demoMenuState (.cmd .regenerate)).genCount = 4
    ∧ (run demoVoices (enterLoop demoMenuState) [.synthErr "boom", .retryAnswer true]).genCount = 5
    ∧ (run demoVoices (run demoVoices demoMenuState [.cmd (.newPhrase "bye"), .synthOk demoBytes])
        (regenRounds demoBytes 2)).history = countdown 3 3 ++ demoMenuState.history := by
  have h := c4_amended_generation_numbering
  refine ⟨(h.1 demoVoices demoMenuState "bye" rfl (by decide)).1, ?_, ?_, ?_⟩
  · exact h.2.1 demoVoices demoMenuState rfl
  · exact (h.2.2.1 demoVoices (enterLoop demoMenuState) "boom" rfl).1
  · exact (h.2.2.2 demoVoices demoMenuState demoBytes "bye" 2 rfl (by decide)).2

/-- Claim C5 counterexample: the claim says every route rejects a phrase
that is empty after trimming, with no external call.  The command-line
route (main.py lines 144-146) joins sys.argv[1:] without stripping or
checking, so running the program with the single argument " " yields the
phrase " ", which is empty after stripping, and the loop then calls
generate_audio, which performs its provider convert call
unconditionally. -/
theorem c5_counterexample :
    mainStartup [" "] "" = .phrase " "
    ∧ strip " " = ""
    ∧ (generateAudio (fun _ _ _ => .ok demoBytes) " " defaultVoice defaultSettings).2 = 1 :=
  ⟨rfl, rfl, rfl⟩

/-- Claim C5 amended: the whitespace-only-phrase guard holds on the
reactive generate handler (warning, state unchanged, zero provider
calls), on the interactive startup prompt (exit before any synthesis)
and on the new-phrase menu command (the menu state is left unchanged);
but generate_audio itself has no emptiness check, and the command-line
argument route joins argv without trimming or checking, so a
whitespace-only argument reaches the provider. -/
theorem c5_amended_empty_phrase_guards :
    (∀ (synth : String → String → Settings → SynthOutcome) (st : AppState)
      (p v : String) (s : Settings),
      strip p = "" →
        appGenerateRun synth st p v s
          = (st, 0, [.warning "Please enter a phrase to generate."]))
    ∧ (∀ inp : String, strip inp = "" → mainStartup [] inp = .exitNoPhrase)
    ∧ ∀ (voices : List Voice) (st : LoopState) (raw : String),
        st.phase = .menu → strip raw = "" →
          step voices st (.cmd (.newPhrase raw)) = st := by
  refine ⟨?_, ?_, ?_⟩
  · intro synth st p v s hp
    unfold appGenerateRun
    rw [if_pos hp]
  · intro inp h
    simp [mainStartup, h]
  · intro voices st raw h hraw
    simp [step, menuStep, h, hraw]

/-- Claim C5 amended, witness: concrete whitespace-only inputs on each
guarded route. -/
theorem c5_amended_witness :
    appGenerateRun (fun _ _ _ => .ok demoBytes)
        { audio_data := none, last_phrase := none } "   " "V1" defaultSettings
      = ({ audio_data := none, last_phrase := none }, 0,
         [.warning "Please enter a phrase to generate."])
    ∧ mainStartup [] "  " = .exitNoPhrase
    ∧ step demoVoices demoMenuState (.cmd (.newPhrase " ")) = demoMenuState :=
  ⟨c5_amended_empty_phrase_guards.1 (fun _ _ _ => .ok demoBytes)
      { audio_data := none, last_phrase := none } "   " "V1" defaultSettings rfl,
   c5_amended_empty_phrase_guards.2.1 "  " rfl,
   c5_amended_empty_phrase_guards.2.2 demoVoices demoMenuState " " rfl rfl⟩

/-- Claim C6 counterexample: the claim says non-numeric input during
parameter editing is rejected by the interaction layer before reaching
the clamp-and-store logic, so the edit never raises.  In main.py lines
241-243 a non-empty input goes straight into float(val) with no
try/except, so the non-numeric input classified as nonNumeric raises
ValueError: the edit run reports a raise and the loop state ends
crashed. -/
theorem c6_counterexample :
    (editSettingsRun defaultSettings .nonNumeric .empty .empty).2 = true
    ∧ (step demoVoices demoMenuState (.cmd (.editSettings .nonNumeric .empty .empty))).phase
        = .crashed :=
  ⟨rfl, rfl⟩

/-- Claim C6 amended: only empty input is filtered out by the
interaction layer (keep-current); every successfully parsed numeric
value is clamped and stored and the edit completes without raising, but
a non-numeric non-empty input raises ValueError out of the edit.  Speed
is never touched by the terminal edit branch. -/
theorem c6_amended_numeric_inputs_never_raise :
    (∀ s : Settings, editSettingsRun s .empty .empty .empty = (s, false))
    ∧ (∀ (s : Settings) (q1 q2 q3 : ℚ),
        editSettingsRun s (.numeric q1) (.numeric q2) (.numeric q3)
          = ({ s with
                stability := clamp01 q1
                similarity_boost := clamp01 q2
                style := clamp01 q3 }, false))
    ∧ ∀ (s : Settings) (i1 i2 i3 : EditInput),
        i1 ≠ .nonNumeric → i2 ≠ .nonNumeric → i3 ≠ .nonNumeric →
          (editSettingsRun s i1 i2 i3).2 = false
          ∧ (editSettingsRun s i1 i2 i3).1.speed = s.speed := by
  refine ⟨fun s => rfl, fun s q1 q2 q3 => rfl, ?_⟩
  intro s i1 i2 i3 h1 h2 h3
  cases i1 <;> cases i2 <;> cases i3 <;>
    simp_all [editSettingsRun, editSimStep, editStyleStep]

/-- Claim C6 amended, witness: a concrete numeric edit completes without
raising and leaves speed untouched. -/
theorem c6_amended_witness :
    (editSettingsRun defaultSettings (.numeric (9/10)) .empty .empty).2 = false
    ∧ (editSettingsRun defaultSettings (.numeric (9/10)) .empty .empty).1.speed
        = defaultSettings.speed :=
  c6_amended_numeric_inputs_never_raise.2.2 defaultSettings (.numeric (9/10)) .empty .empty
    (by simp) (by simp) (by simp)

/-- Claim C7 counterexample: the claim says persist with an empty or
whitespace-only name fails with a user-visible InvalidName, not a silent
no-op.  In the terminal save branch (main.py lines 214-223) a name that
strips to empty skips the whole body: nothing is written AND nothing is
printed, and the menu state is completely unchanged — a silent no-op. -/
theorem c7_counterexample :
    saveBranch [] demoBytes "  " = ([], [])
    ∧ step demoVoices demoMenuState (.cmd (.save "  ")) = demoMenuState :=
  ⟨rfl, rfl⟩

/-- Claim C7 amended: an empty-after-trimming name is rejected with the
visible "Enter a filename" warning in the reactive front-end but is a
silent no-op in the terminal front-end; in both, persisting twice under
the same name succeeds both times with the second write overwriting the
first and no error. -/
theorem c7_amended_save_semantics :
    (∀ (recs : List (String × Bytes)) (b : Bytes) (raw : String),
      strip raw = "" → saveBranch recs b raw = (recs, []))
    ∧ (∀ (recs : List (String × Bytes)) (a : Bytes) (raw : String),
      strip raw = "" → appSaveClick recs a raw = (recs, [.warning "Enter a filename"]))
    ∧ (∀ (recs : List (String × Bytes)) (b1 b2 : Bytes),
      (saveBranch recs b1 "take1").2 = ["Saved to: recordings/take1.mp3"]
      ∧ (saveBranch (saveBranch recs b1 "take1").1 b2 "take1").2
          = ["Saved to: recordings/take1.mp3"]
      ∧ List.lookup "take1" (saveBranch (saveBranch recs b1 "take1").1 b2 "take1").1
          = some b2)
    ∧ ∀ (recs : List (String × Bytes)) (b1 b2 : Bytes),
      (appSaveClick recs b1 "take1").2 = [.saved "take1"]
      ∧ (appSaveClick (appSaveClick recs b1 "take1").1 b2 "take1").2 = [.saved "take1"]
      ∧ List.lookup "take1" (appSaveClick (appSaveClick recs b1 "take1").1 b2 "take1").1
          = some b2 := by
  refine ⟨?_, ?_, ?_, ?_⟩
  · intro recs b raw h
    simp [saveBranch, h]
  · intro recs a raw h
    simp [appSaveClick, h]
  · intro recs b1 b2
    exact ⟨rfl, rfl, rfl⟩
  · intro recs b1 b2
    exact ⟨rfl, rfl, rfl⟩

/-- Claim C7 amended, witness: the two empty-name behaviours at concrete
inputs (silent in the terminal branch, warning in the reactive one). -/
theorem c7_amended_witness :
    saveBranch [] demoBytes " " = ([], [])
    ∧ appSaveClick [] demoBytes " " = ([], [.warning "Enter a filename"])
    ∧ List.lookup "take1" (saveBranch (saveBranch [] demoBytes "take1").1 demoBytes2 "take1").1
        = some demoBytes2 :=
  ⟨c7_amended_save_semantics.1 [] demoBytes " " rfl,
   c7_amended_save_semantics.2.1 [] demoBytes " " rfl,
   (c7_amended_save_semantics.2.2.1 [] demoBytes demoBytes2).2.2⟩

/-- Claim C8 counterexample: the claim says two list calls within the
freshness window perform at most one provider call in total.  The
terminal front-end's get_voices (main.py lines 44-47, called by
select_voice and list_voices) has no cache at all: two consecutive
invocations — necessarily within any freshness window — perform one
provider call each, two in total. -/
theorem c8_counterexample :
    (getVoicesMain demoVoices).2 + (getVoicesMain demoVoices).2 = 2
    ∧ ¬ ((getVoicesMain demoVoices).2 + (getVoicesMain demoVoices).2 ≤ 1) :=
  ⟨rfl, by decide⟩

/-- Claim C8 amended: in the reactive front-end, get_voices is cached
with ttl=300, so a first call followed by a second one less than 300
seconds later performs exactly one provider call in total and returns
the same list; a call at least 300 seconds after the entry was stored
performs exactly one more provider call; clearing the cache (the
Refresh button) makes the next call perform exactly one provider call.
The terminal front-end's get_voices is uncached and performs exactly one
provider call per invocation. -/
theorem c8_amended_cache_freshness :
    (∀ (provider : List Voice) (t now : Nat),
      now - t < 300 →
        (getVoicesApp provider t { entry := none }).providerCalls
          + (getVoicesApp provider now
              (getVoicesApp provider t { entry := none }).cache).providerCalls = 1
        ∧ (getVoicesApp provider now
            (getVoicesApp provider t { entry := none }).cache).voices = provider)
    ∧ (∀ (provider provider2 : List Voice) (t now : Nat),
      300 ≤ now - t →
        (getVoicesApp provider2 now { entry := some (t, provider) }).providerCalls = 1
        ∧ (getVoicesApp provider2 now { entry := some (t, provider) }).voices = provider2)
    ∧ (∀ (provider : List Voice) (now : Nat) (c : Cache),
        (getVoicesApp provider now (clearVoicesCache c)).providerCalls = 1)
    ∧ ∀ provider : List Voice, (getVoicesMain provider).2 = 1 := by
  refine ⟨?_, ?_, ?_, ?_⟩
  · intro provider t now h
    constructor
    · show 1 + (getVoicesApp provider now { entry := some (t, provider) }).providerCalls = 1
      simp [getVoicesApp, h]
    · show (getVoicesApp provider now { entry := some (t, provider) }).voices = provider
      simp [getVoicesApp, h]
  · intro provider provider2 t now h
    have hlt : ¬ (now - t < 300) := by omega
    constructor <;> simp [getVoicesApp, hlt]
  · intro provider now c
    rfl
  · intro provider
    rfl

/-- Claim C8 amended, witness: a hit 100 seconds after filling the cache
costs one provider call in total; a miss 400 seconds after the entry was
stored costs exactly one more. -/
theorem c8_amended_witness :
    (getVoicesApp demoVoices 0 { entry := none }).providerCalls
      + (getVoicesApp demoVoices 100
          (getVoicesApp demoVoices 0 { entry := none }).cache).providerCalls = 1
    ∧ (getVoicesApp demoVoices 400 { entry := some (0, demoVoices) }).providerCalls = 1 :=
  ⟨(c8_amended_cache_freshness.1 demoVoices 0 100 (by decide)).1,
   (c8_amended_cache_freshness.2.1 demoVoices demoVoices 0 400 (by decide)).1⟩

/-- Claim C9 counterexample: the claim says a non-numeric ordinal fails
with OutOfRange.  In main.py select_voice (lines 80-89) a non-numeric
input fails the `choice.isdigit()` test and falls through SILENTLY to
return the current voice: no "Invalid number" message is printed (second
component false), unlike the out-of-range numeric input "0" which does
print it.  So the selection is kept, but there is no OutOfRange
failure signal for non-numeric input. -/
theorem c9_counterexample :
    selectVoice demoVoices "keep" "abc" = ("keep", false)
    ∧ selectVoice demoVoices "keep" "0" = ("keep", true) :=
  ⟨rfl, rfl⟩

/-- Claim C9 amended: select never partially mutates — the result is
always either the untouched current voice or a genuine member of the
list; a NUMERIC ordinal outside [1, len] (0 and len+1 included) keeps
the current voice and prints the invalid-number (OutOfRange) message,
while a non-numeric or empty input keeps the current voice silently. -/
theorem c9_amended_select_bounds :
    (∀ (voices : List Voice) (cur inp : String) (n : Nat),
      parseOrdinal (strip inp) = some n → ¬ (1 ≤ n ∧ n ≤ voices.length) →
        selectVoice voices cur inp = (cur, true))
    ∧ (∀ (voices : List Voice) (cur inp : String),
      parseOrdinal (strip inp) = none → selectVoice voices cur inp = (cur, false))
    ∧ ∀ (voices : List Voice) (cur inp : String),
        (selectVoice voices cur inp).1 = cur
        ∨ ∃ v ∈ voices, (selectVoice voices cur inp).1 = v.voice_id := by
  refine ⟨?_, ?_, ?_⟩
  · intro voices cur inp n hp hn
    simp [selectVoice, hp, hn]
  · intro voices cur inp hp
    simp [selectVoice, hp]
  · intro voices cur inp
    cases hp : parseOrdinal (strip inp) with
    | none => exact Or.inl (by simp [selectVoice, hp])
    | some n =>
        by_cases hb : 1 ≤ n ∧ n ≤ voices.length
        · right
          have hlen : n - 1 < voices.length := by omega
          refine ⟨voices.getD (n - 1) { voice_id := "", name := "", category := "unknown" },
            ?_, ?_⟩
          · rw [List.getD_eq_getElem _ _ hlen]
            exact List.getElem_mem hlen
          · simp [selectVoice, hp, hb]
        · exact Or.inl (by simp [selectVoice, hp, hb])

/-- Claim C9 amended, witness: out-of-range ordinals 0 and len+1 = 3 on
the two-voice catalog keep the selection and print the message; "abc"
keeps it silently; "2" picks a genuine member. -/
theorem c9_amended_witness :
    selectVoice demoVoices "keep" "0" = ("keep", true)
    ∧ selectVoice demoVoices "keep" "3" = ("keep", true)
    ∧ selectVoice demoVoices "keep" "abc" = ("keep", false)
    ∧ ((selectVoice demoVoices "keep" "2").1 = "keep"
        ∨ ∃ v ∈ demoVoices, (selectVoice demoVoices "keep" "2").1 = v.voice_id) :=
  ⟨c9_amended_select_bounds.1 demoVoices "keep" "0" 0 rfl (by decide),
   c9_amended_select_bounds.1 demoVoices "keep" "3" 3 rfl (by decide),
   c9_amended_select_bounds.2.1 demoVoices "keep" "abc" rfl,
   c9_amended_select_bounds.2.2 demoVoices "keep" "2"⟩

/-- Claim C10: in the terminal front-end, the change-voice menu command
unconditionally breaks back to the loop head (main.py lines 232-235):
the generation counter increments by exactly 1 and a new synthesis
attempt starts, whatever select_voice returned — including the
keep-current fallthroughs on empty, non-numeric or out-of-range input —
and a successful attempt then replaces the current artifact with the
newly generated bytes. -/
theorem c10_change_voice_always_regenerates :
    ∀ (voices : List Voice) (st : LoopState) (inp : String) (b : Bytes),
      st.phase = .menu →
        (step voices st (.cmd (.changeVoice inp))).phase = .generating
        ∧ (step voices st (.cmd (.changeVoice inp))).genCount = st.genCount + 1
        ∧ (step voices st (.cmd (.changeVoice inp))).voice
            = (selectVoice voices st.voice inp).1
        ∧ (step voices st (.cmd (.changeVoice inp))).audioFile = st.audioFile
        ∧ (step voices (step voices st (.cmd (.changeVoice inp))) (.synthOk b)).audioFile
            = some b
        ∧ (step voices (step voices st (.cmd (.changeVoice inp))) (.synthOk b)).history
            = (st.genCount + 1) :: st.history := by
  intro voices st inp b h
  refine ⟨?_, ?_, ?_, ?_, ?_, ?_⟩ <;>
    simp [step, menuStep, enterLoop, h]

/-- Claim C10 witness: entering empty input at the voice prompt keeps
the current voice, yet the command still increments the counter, starts
a new attempt and the success replaces the artifact. -/
theorem c10_witness :
    (step demoVoices demoMenuState (.cmd (.changeVoice ""))).phase = .generating
    ∧ (step demoVoices demoMenuState (.cmd (.changeVoice ""))).genCount = 4
    ∧ (step demoVoices demoMenuState (.cmd (.changeVoice ""))).voice = "keep"
    ∧ (step demoVoices (step demoVoices demoMenuState (.cmd (.changeVoice "")))
        (.synthOk demoBytes2)).audioFile = some demoBytes2 := by
  have h := c10_change_voice_always_regenerates demoVoices demoMenuState "" demoBytes2 rfl
  exact ⟨h.1, h.2.1, h.2.2.1, h.2.2.2.2.1⟩

end VoiceSampler
